import Mathlib

/-!
Shallow embedding of `src/utils/plotter.py`, a theming and PNG-export layer
for Plotly figures.  The module builds a fixed theme dictionary
(`get_plotly_theme` / `PLOTLY_THEME`), a fixed accent palette
(`CHART_COLORS`), a figure styler (`update_layout`) that merges the theme
into a figure's layout and cycles the palette over the figure's traces, and
two PNG export entry points (`export_png_high_quality`, `export_png`) that
normalize the filename, create the destination directory and hand the figure
to the external kaleido rendering engine.

Figures are embedded as explicit records of a layout and a list of traces;
the file system and the rendering engine are embedded as explicit state: an
export returns the path string, the resulting set of directories, and the
argument record passed to `fig.write_image`.
-/

namespace Plotter

/-- A font dictionary of the theme (`family`, `color`, `size`). -/
structure Font where
  family : String
  color : String
  size : ℕ
deriving DecidableEq

/-- A title-style dictionary: a nested font dictionary. -/
structure TitleStyle where
  font : Font
deriving DecidableEq

/-- An axis-style dictionary of the theme (the `xaxis` / `yaxis` entries). -/
structure AxisStyle where
  gridcolor : String
  gridwidth : ℚ
  linecolor : String
  linewidth : ℚ
  tickcolor : String
  title_font_color : String
  tickfont_color : String
  zeroline : Bool
  zerolinecolor : String
  zerolinewidth : ℚ
deriving DecidableEq

/-- The legend-style dictionary of the theme. -/
structure LegendStyle where
  bgcolor : String
  bordercolor : String
  font_color : String
deriving DecidableEq

/-- The `"layout"` dictionary of the theme. -/
structure ThemeLayout where
  paper_bgcolor : String
  plot_bgcolor : String
  font : Font
  title : TitleStyle
  xaxis : AxisStyle
  yaxis : AxisStyle
  legend : LegendStyle
deriving DecidableEq

/-- The dictionary returned by `get_plotly_theme`. -/
structure Theme where
  layout : ThemeLayout
deriving DecidableEq

/-- `get_plotly_theme()`: create the Plotly theme configuration from the CSS
color scheme.  A pure function of no arguments (the `Unit` argument stands
for the empty Python argument list). -/
def get_plotly_theme (_ : Unit) : Theme :=
  let background := "#ffffff"
  let foreground := "#252525"
  let card := "#ffffff"
  let border := "#d0d0d0"
  { layout :=
    { paper_bgcolor := background
      plot_bgcolor := card
      font := { family := "Source Code Pro, monospace", color := foreground, size := 10 }
      title :=
        { font := { family := "Source Code Pro, monospace", color := foreground, size := 24 } }
      xaxis :=
        { gridcolor := border, gridwidth := 1/2, linecolor := border, linewidth := 1/2
          tickcolor := border, title_font_color := foreground, tickfont_color := foreground
          zeroline := true, zerolinecolor := border, zerolinewidth := 1/2 }
      yaxis :=
        { gridcolor := border, gridwidth := 1/2, linecolor := border, linewidth := 1/2
          tickcolor := border, title_font_color := foreground, tickfont_color := foreground
          zeroline := true, zerolinecolor := border, zerolinewidth := 1/2 }
      legend := { bgcolor := card, bordercolor := border, font_color := foreground } } }

/-- `PLOTLY_THEME = get_plotly_theme()`: the module-level theme constant. -/
def PLOTLY_THEME : Theme := get_plotly_theme ()

/-- `CHART_COLORS`: the fixed accent color palette (5 primary CSS colors
followed by a 12-color secondary palette). -/
def CHART_COLORS : List String :=
  [ "#d97706", "#0891b2", "#7c3aed", "#65a30d", "#ca8a04",
    "#E53E3E", "#38B2AC", "#3182CE", "#68D391", "#F6AD55",
    "#B794F6", "#4FD1C7", "#F6E05E", "#9F7AEA", "#63B3ED",
    "#F687B3", "#48BB78" ]

/-- A settable color slot on a trace: the Plotly `trace.line` / `trace.marker`
sub-object, which carries an optional `color` field.  A trace whose attribute
is missing or falsy (the `hasattr(trace, ...) and trace...` test) is embedded
with `none` at the outer `Option` level. -/
structure ColorSlot where
  color : Option String
deriving DecidableEq

/-- One plotted data series of a figure: its x/y series values and its
optional line and marker color slots. -/
structure Trace where
  xdata : List ℚ
  ydata : List ℚ
  line : Option ColorSlot
  marker : Option ColorSlot
deriving DecidableEq

/-- The all-empty trace, used as the out-of-range default for `List.getD`. -/
def Trace.default : Trace := { xdata := [], ydata := [], line := none, marker := none }

/-- The legend placement dictionary set at the end of `update_layout`:
`dict(orientation="h", yanchor="bottom", y=-0.25, xanchor="center", x=0.5)`. -/
structure LegendConfig where
  orientation : String
  yanchor : String
  y : ℚ
  xanchor : String
  x : ℚ
deriving DecidableEq

/-- The mutable layout of a figure; `none` means the field was never set. -/
structure FigLayout where
  paper_bgcolor : Option String
  plot_bgcolor : Option String
  font : Option Font
  titleStyle : Option TitleStyle
  xaxis : Option AxisStyle
  yaxis : Option AxisStyle
  legendStyle : Option LegendStyle
  title_text : Option String
  legendConfig : Option LegendConfig
deriving DecidableEq

/-- A Plotly figure: a layout plus the ordered trace sequence `fig.data`. -/
structure Figure where
  layout : FigLayout
  data : List Trace
deriving DecidableEq

/-- `fig.update_layout(**PLOTLY_THEME["layout"])`: write every field of the
theme's layout dictionary into the figure's layout. -/
def applyThemeLayout (l : FigLayout) (t : ThemeLayout) : FigLayout :=
  { l with
    paper_bgcolor := some t.paper_bgcolor
    plot_bgcolor := some t.plot_bgcolor
    font := some t.font
    titleStyle := some t.title
    xaxis := some t.xaxis
    yaxis := some t.yaxis
    legendStyle := some t.legend }

/-- `CHART_COLORS[i % len(CHART_COLORS)]`: the accent color assigned to the
trace at index `i`. -/
def traceColor (i : ℕ) : String :=
  CHART_COLORS.getD (i % CHART_COLORS.length) ""

/-- One iteration of the `for i, trace in enumerate(fig.data)` loop of
`update_layout`: set the line color if the trace has a line slot, else the
marker color if it has a marker slot, else leave the trace untouched. -/
def styleTrace (i : ℕ) (t : Trace) : Trace :=
  match t.line with
  | some slot => { t with line := some { slot with color := some (traceColor i) } }
  | none =>
    match t.marker with
    | some slot => { t with marker := some { slot with color := some (traceColor i) } }
    | none => t

/-- The whole trace-coloring loop, starting the enumeration at index `i`. -/
def styleTraces (i : ℕ) : List Trace → List Trace
  | [] => []
  | t :: ts => styleTrace i t :: styleTraces (i + 1) ts

/-- The literal legend placement passed to the final `fig.update_layout`. -/
def legendDict : LegendConfig :=
  { orientation := "h", yanchor := "bottom", y := -(1/4 : ℚ), xanchor := "center", x := 1/2 }

/-- `update_layout(fig, title)`: merge the theme into the figure's layout, set
the title, cycle the accent palette over the traces, configure the legend and
return the figure. -/
def update_layout (fig : Figure) (title : String) : Figure :=
  let fig := { fig with layout := applyThemeLayout fig.layout PLOTLY_THEME.layout }
  let fig := { fig with layout := { fig.layout with title_text := some title } }
  let fig := { fig with data := styleTraces 0 fig.data }
  let fig := { fig with layout := { fig.layout with legendConfig := some legendDict } }
  fig

/-- The accent color a trace actually carries: the line slot's color when the
line slot is present, otherwise the marker slot's color when present. -/
def traceAccent (t : Trace) : Option String :=
  match t.line with
  | some slot => slot.color
  | none =>
    match t.marker with
    | some slot => slot.color
    | none => none

/-- Python `str.endswith`, computed on the underlying character lists. -/
def strEndsWith (s suff : String) : Bool :=
  suff.data.isSuffixOf s.data

/-- The filename normalization of `export_png_high_quality`:
`if not filename.endswith(".png"): filename += ".png"`. -/
def resolveFilename (filename : String) : String :=
  if strEndsWith filename ".png" then filename else filename ++ ".png"

/-- Split a character list at every `'/'` separator. -/
def splitOnSlash : List Char → List (List Char)
  | [] => [[]]
  | c :: cs =>
    let r := splitOnSlash cs
    if c = '/' then [] :: r
    else
      match r with
      | [] => [[c]]
      | h :: t => (c :: h) :: t

/-- The path components of a filename (`Path(filename)` viewed as its
slash-separated parts). -/
def pathComponents (s : String) : List String :=
  (splitOnSlash s.data).map String.mk

/-- The components of `Path(filename).parent`. -/
def parentComponents (s : String) : List String :=
  (pathComponents s).dropLast

/-- Every directory that `mkdir(parents=True)` on the path `cs` ensures
exists: each nonempty initial segment of `cs`, the path itself included. -/
def ancestorDirs (cs : List String) : Finset (List String) :=
  ((List.range cs.length).map fun k => cs.take (k + 1)).toFinset

/-- The file-system state visible to this module: the set of directories that
exist, each as its list of path components. -/
structure FS where
  dirs : Finset (List String)
deriving DecidableEq

/-- Modelled from the spec: `pathlib` is an external collaborator, so
`file_path.parent.mkdir(parents=True, exist_ok=True)` is embedded by its
documented contract — create the parent directory and all missing ancestors,
and succeed without error whether or not they already exist. -/
def mkdirParents (cs : List String) (fs : FS) : FS :=
  { dirs := fs.dirs ∪ ancestorDirs cs }

/-- The argument record handed to `fig.write_image(...)`. -/
structure EngineRequest where
  fig : Figure
  path : String
  width : ℕ
  height : ℕ
  scale : ℚ
  format : String
  engine : String
deriving DecidableEq

/-- The outcome of an export call: the returned path string, the resulting
file-system state, and the request passed to the rendering engine. -/
structure ExportResult where
  ret : String
  fs : FS
  req : EngineRequest
deriving DecidableEq

/-- Default `width` of `export_png_high_quality`. -/
def HIGH_QUALITY_DEFAULT_WIDTH : ℕ := 1200

/-- Default `height` of `export_png_high_quality`. -/
def HIGH_QUALITY_DEFAULT_HEIGHT : ℕ := 800

/-- Default `scale` of `export_png_high_quality` (2.0 = 2x resolution). -/
def HIGH_QUALITY_DEFAULT_SCALE : ℚ := 2

/-- Default `width` of `export_png`. -/
def EXPORT_PNG_DEFAULT_WIDTH : ℕ := 1200

/-- Default `height` of `export_png`. -/
def EXPORT_PNG_DEFAULT_HEIGHT : ℕ := 800

/-- Default `scale` of `export_png` (1.0). -/
def EXPORT_PNG_DEFAULT_SCALE : ℚ := 1

/-- `export_png_high_quality(fig, filename, width, height, scale)`: append the
`.png` suffix when missing, create the parent directory, call
`fig.write_image(str(file_path), width, height, scale, format="png",
engine="kaleido")` and return `str(file_path)`. -/
def export_png_high_quality (fig : Figure) (filename : String) (width : ℕ)
    (height : ℕ) (scale : ℚ) (fs : FS) : ExportResult :=
  let filename := resolveFilename filename
  let fs := mkdirParents (parentComponents filename) fs
  { ret := filename
    fs := fs
    req :=
      { fig := fig, path := filename, width := width, height := height
        scale := scale, format := "png", engine := "kaleido" } }

/-- `export_png(fig, filename, width, height, scale)`: delegate everything to
`export_png_high_quality`. -/
def export_png (fig : Figure) (filename : String) (width : ℕ) (height : ℕ)
    (scale : ℚ) (fs : FS) : ExportResult :=
  export_png_high_quality fig filename width height scale fs

/-- Modelled from the spec: the rendering engine is an external collaborator;
its contract says the produced PNG has pixel width `width × scale`. -/
def pixelWidth (r : EngineRequest) : ℚ := (r.width : ℚ) * r.scale

/-- Modelled from the spec: the produced PNG has pixel height
`height × scale`. -/
def pixelHeight (r : EngineRequest) : ℚ := (r.height : ℚ) * r.scale

end Plotter

namespace Plotter

/-- A color slot with no color set yet. -/
def sampleSlot : ColorSlot := { color := none }

/-- A small concrete trace exposing a line slot and no marker slot. -/
def sampleLineTrace : Trace :=
  { xdata := [1, 2], ydata := [3, 4], line := some sampleSlot, marker := none }

/-- A figure layout with nothing set yet. -/
def sampleLayout : FigLayout :=
  { paper_bgcolor := none, plot_bgcolor := none, font := none, titleStyle := none
    xaxis := none, yaxis := none, legendStyle := none, title_text := none
    legendConfig := none }

/-- A concrete figure with 18 traces: one more than the palette length, so
color assignment wraps around. -/
def sampleFigure : Figure :=
  { layout := sampleLayout, data := List.replicate 18 sampleLineTrace }

/-- A file system with no directories. -/
def emptyFS : FS := { dirs := ∅ }

/-- A file system in which the directory `out` already exists. -/
def outFS : FS := { dirs := {["out"]} }

/-- `styleTrace` never touches a trace's series values. -/
theorem styleTrace_preserves_series (i : ℕ) (t : Trace) :
    (styleTrace i t).xdata = t.xdata ∧ (styleTrace i t).ydata = t.ydata := by
  cases hl : t.line with
  | some slot => simp [styleTrace, hl]
  | none =>
    cases hm : t.marker with
    | some slot => simp [styleTrace, hl, hm]
    | none => simp [styleTrace, hl, hm]

/-- The trace-coloring loop preserves the x series of every trace. -/
theorem styleTraces_map_xdata (i : ℕ) (ts : List Trace) :
    (styleTraces i ts).map Trace.xdata = ts.map Trace.xdata := by
  induction ts generalizing i with
  | nil => rfl
  | cons t ts ih =>
    simp [styleTraces, (styleTrace_preserves_series i t).1, ih]

/-- The trace-coloring loop preserves the y series of every trace. -/
theorem styleTraces_map_ydata (i : ℕ) (ts : List Trace) :
    (styleTraces i ts).map Trace.ydata = ts.map Trace.ydata := by
  induction ts generalizing i with
  | nil => rfl
  | cons t ts ih =>
    simp [styleTraces, (styleTrace_preserves_series i t).2, ih]

/-- Indexing into the trace-coloring loop: the trace at offset `j` of a loop
started at index `i` is the original trace styled with index `i + j`. -/
theorem styleTraces_getD (i j : ℕ) (ts : List Trace) (d : Trace)
    (h : j < ts.length) :
    (styleTraces i ts).getD j d = styleTrace (i + j) (ts.getD j d) := by
  induction ts generalizing i j with
  | nil => exact absurd h (by simp)
  | cons t ts ih =>
    cases j with
    | zero => simp [styleTraces]
    | succ j =>
      have h' : j < ts.length := Nat.lt_of_succ_lt_succ h
      simp only [styleTraces, List.getD_cons_succ]
      rw [ih (i + 1) j h']
      congr 1
      omega

/-- The traces of a styled figure are the original traces run through the
coloring loop from index 0. -/
theorem update_layout_data (fig : Figure) (title : String) :
    (update_layout fig title).data = styleTraces 0 fig.data := rfl

/-- The file-system state after an export is the original one with the
resolved path's parent directory chain created. -/
theorem export_fs_eq (fig : Figure) (filename : String) (w h : ℕ) (s : ℚ)
    (fs : FS) :
    (export_png_high_quality fig filename w h s fs).fs
      = mkdirParents (parentComponents (resolveFilename filename)) fs := rfl

/-- The string an export returns is the resolved filename. -/
theorem export_ret_eq (fig : Figure) (filename : String) (w h : ℕ) (s : ℚ)
    (fs : FS) :
    (export_png_high_quality fig filename w h s fs).ret
      = resolveFilename filename := rfl

end Plotter

namespace Plotter

/-- C10: the accent palette `CHART_COLORS` is a fixed non-empty constant of
length 17, so the index computation `i % len(CHART_COLORS)` in the styler is
never a modulo by zero and always yields an in-bounds palette index. -/
theorem chart_colors_palette_safe :
    CHART_COLORS.length = 17 ∧ 0 < CHART_COLORS.length
    ∧ ∀ i : ℕ, i % CHART_COLORS.length < CHART_COLORS.length :=
  ⟨rfl, by decide, fun i => Nat.mod_lt i (by decide)⟩

/-- C8: the Theme Provider is pure and deterministic: it takes no input,
cannot fail, and any two calls within a process return field-for-field equal
style descriptors, both equal to the module constant `PLOTLY_THEME`. -/
theorem get_plotly_theme_deterministic :
    ∀ u v : Unit, get_plotly_theme u = get_plotly_theme v
      ∧ get_plotly_theme u = PLOTLY_THEME :=
  fun _ _ => ⟨rfl, rfl⟩

/-- C6: styling is non-destructive of data: `update_layout` leaves every
trace's x and y series values unchanged; only layout fields and trace color
slots are modified. -/
theorem update_layout_preserves_data (fig : Figure) (title : String) :
    (update_layout fig title).data.map Trace.xdata = fig.data.map Trace.xdata
    ∧ (update_layout fig title).data.map Trace.ydata = fig.data.map Trace.ydata := by
  rw [update_layout_data]
  exact ⟨styleTraces_map_xdata 0 fig.data, styleTraces_map_ydata 0 fig.data⟩

/-- A trace with a line or marker slot carries the accent color of its index
after one pass of the coloring loop body. -/
theorem traceAccent_styleTrace (i : ℕ) (t : Trace)
    (h : t.line.isSome = true ∨ t.marker.isSome = true) :
    traceAccent (styleTrace i t) = some (traceColor i) := by
  cases hl : t.line with
  | some slot => simp [styleTrace, hl, traceAccent]
  | none =>
    cases hm : t.marker with
    | some slot => simp [styleTrace, hl, hm, traceAccent]
    | none =>
      rw [hl] at h
      rw [hm] at h
      simp at h

/-- C1: cyclic color assignment: in a figure whose trace at index `i` exposes
a line or marker color slot, after `update_layout` that trace carries the
palette color at index `i % 17`, for every `i` below the trace count — in
particular the colors cycle once the palette is exhausted. -/
theorem cyclic_color_assignment (fig : Figure) (title : String) (i : ℕ)
    (hi : i < fig.data.length)
    (hslot : (fig.data.getD i Trace.default).line.isSome = true
      ∨ (fig.data.getD i Trace.default).marker.isSome = true) :
    traceAccent ((update_layout fig title).data.getD i Trace.default)
      = some (CHART_COLORS.getD (i % CHART_COLORS.length) "") := by
  rw [update_layout_data, styleTraces_getD 0 i fig.data Trace.default hi, Nat.zero_add]
  exact traceAccent_styleTrace i (fig.data.getD i Trace.default) hslot

/-- C1 witness: in the concrete 18-trace figure `sampleFigure` the trace at
index 17 (one past the 17-color palette) receives palette color 17 % 17 = 0. -/
theorem cyclic_color_assignment_witness :
    (17 < sampleFigure.data.length
      ∧ ((sampleFigure.data.getD 17 Trace.default).line.isSome = true
        ∨ (sampleFigure.data.getD 17 Trace.default).marker.isSome = true))
    ∧ traceAccent ((update_layout sampleFigure "Commits by Month").data.getD 17 Trace.default)
        = some (CHART_COLORS.getD (17 % CHART_COLORS.length) "") :=
  ⟨⟨by decide, Or.inl (by decide)⟩,
    cyclic_color_assignment sampleFigure "Commits by Month" 17 (by decide)
      (Or.inl (by decide))⟩

/-- C2: slot selection: the styler sets the line color slot whenever the
trace has one (leaving the marker slot untouched); only when there is no line
slot does it set the marker slot; a trace with neither slot is returned
completely unchanged, and no error is possible; and the styled figure's trace
at index `i` is exactly the original trace run through this selection. -/
theorem trace_color_slot_selection (i : ℕ) (t : Trace) :
    (∀ slot, t.line = some slot →
      styleTrace i t = { t with line := some { slot with color := some (traceColor i) } })
    ∧ (∀ slot, t.line = none → t.marker = some slot →
      styleTrace i t = { t with marker := some { slot with color := some (traceColor i) } })
    ∧ (t.line = none → t.marker = none → styleTrace i t = t)
    ∧ ∀ (fig : Figure) (title : String), i < fig.data.length →
      (update_layout fig title).data.getD i Trace.default
        = styleTrace i (fig.data.getD i Trace.default) := by
  refine ⟨?_, ?_, ?_, ?_⟩
  · intro slot hl
    simp [styleTrace, hl]
  · intro slot hl hm
    simp [styleTrace, hl, hm]
  · intro hl hm
    simp [styleTrace, hl, hm]
  · intro fig title hi
    rw [update_layout_data, styleTraces_getD 0 i fig.data Trace.default hi, Nat.zero_add]

/-- C2 witness: on the concrete trace `sampleLineTrace`, which has a line
slot, the styler writes the accent color into the line slot. -/
theorem trace_color_slot_selection_witness :
    sampleLineTrace.line = some sampleSlot
    ∧ styleTrace 0 sampleLineTrace
      = { sampleLineTrace with
          line := some { sampleSlot with color := some (traceColor 0) } } :=
  ⟨rfl, (trace_color_slot_selection 0 sampleLineTrace).1 sampleSlot rfl⟩

end Plotter

namespace Plotter

/-- C3: filename normalization: the resolved output path is the filename with
".png" appended exactly when the filename lacks that suffix; exporting with
"chart" and with "chart.png" returns the identical path string; and the
returned string equals the path handed to the rendering engine. -/
theorem export_filename_normalization :
    (∀ (fig : Figure) (filename : String) (width height : ℕ) (scale : ℚ) (fs : FS),
      (strEndsWith filename ".png" = false →
        (export_png_high_quality fig filename width height scale fs).ret
          = filename ++ ".png")
      ∧ (strEndsWith filename ".png" = true →
        (export_png_high_quality fig filename width height scale fs).ret = filename)
      ∧ (export_png_high_quality fig filename width height scale fs).ret
        = (export_png_high_quality fig filename width height scale fs).req.path)
    ∧ ∀ (fig : Figure) (width height : ℕ) (scale : ℚ) (fs : FS),
      (export_png_high_quality fig "chart" width height scale fs).ret
        = (export_png_high_quality fig "chart.png" width height scale fs).ret := by
  constructor
  · intro fig filename width height scale fs
    refine ⟨fun h => ?_, fun h => ?_, rfl⟩
    · rw [export_ret_eq]
      simp [resolveFilename, h]
    · rw [export_ret_eq]
      simp [resolveFilename, h]
  · intro fig width height scale fs
    rw [export_ret_eq, export_ret_eq]
    have h1 : strEndsWith "chart" ".png" = false := by decide
    have h2 : strEndsWith "chart.png" ".png" = true := by decide
    rw [resolveFilename, resolveFilename, h1, h2]
    decide

/-- C3 witness: exporting the concrete figure with filename "chart" returns
the path "chart" with ".png" appended. -/
theorem export_filename_normalization_witness :
    strEndsWith "chart" ".png" = false
    ∧ (export_png_high_quality sampleFigure "chart" 1200 800 2 emptyFS).ret
      = "chart" ++ ".png" :=
  ⟨by decide,
    (export_filename_normalization.1 sampleFigure "chart" 1200 800 2 emptyFS).1 (by decide)⟩

/-- C4: the two export entry points are equivalent: on equal arguments
`export_png` performs exactly the same operation as
`export_png_high_quality` and returns the same result; the two differ only in
their default scale values (1.0 preview tier vs the larger 2.0 high-DPI
tier), their default width and height coinciding. -/
theorem export_entry_points_equivalent :
    (∀ (fig : Figure) (filename : String) (width height : ℕ) (scale : ℚ) (fs : FS),
      export_png fig filename width height scale fs
        = export_png_high_quality fig filename width height scale fs)
    ∧ EXPORT_PNG_DEFAULT_SCALE = 1 ∧ HIGH_QUALITY_DEFAULT_SCALE = 2
    ∧ EXPORT_PNG_DEFAULT_SCALE < HIGH_QUALITY_DEFAULT_SCALE
    ∧ EXPORT_PNG_DEFAULT_WIDTH = HIGH_QUALITY_DEFAULT_WIDTH
    ∧ EXPORT_PNG_DEFAULT_HEIGHT = HIGH_QUALITY_DEFAULT_HEIGHT := by
  refine ⟨fun _ _ _ _ _ _ => rfl, rfl, rfl, ?_, rfl, rfl⟩
  rw [EXPORT_PNG_DEFAULT_SCALE, HIGH_QUALITY_DEFAULT_SCALE]
  norm_num

/-- C5: scale scaling law: width, height and scale are handed to the
rendering engine unmodified, the produced image's pixel dimensions are
`width × scale` by `height × scale`, and at 1200×800 the requests at scale
1.0 and 2.0 yield 1200×800 and 2400×1600 pixels respectively. -/
theorem export_scale_scaling_law :
    (∀ (fig : Figure) (filename : String) (width height : ℕ) (scale : ℚ) (fs : FS),
      (export_png_high_quality fig filename width height scale fs).req.width = width
      ∧ (export_png_high_quality fig filename width height scale fs).req.height = height
      ∧ (export_png_high_quality fig filename width height scale fs).req.scale = scale
      ∧ pixelWidth (export_png_high_quality fig filename width height scale fs).req
        = (width : ℚ) * scale
      ∧ pixelHeight (export_png_high_quality fig filename width height scale fs).req
        = (height : ℚ) * scale)
    ∧ ∀ (fig : Figure) (filename : String) (fs : FS),
      pixelWidth (export_png_high_quality fig filename 1200 800 1 fs).req = 1200
      ∧ pixelHeight (export_png_high_quality fig filename 1200 800 1 fs).req = 800
      ∧ pixelWidth (export_png_high_quality fig filename 1200 800 2 fs).req = 2400
      ∧ pixelHeight (export_png_high_quality fig filename 1200 800 2 fs).req = 1600 := by
  constructor
  · intro fig filename width height scale fs
    exact ⟨rfl, rfl, rfl, rfl, rfl⟩
  · intro fig filename fs
    refine ⟨?_, ?_, ?_, ?_⟩ <;>
      norm_num [export_png_high_quality, pixelWidth, pixelHeight]

/-- C7: directory creation idempotence: exporting twice to the same path
succeeds both times and returns the same path, the second run leaving the
file system exactly as the first left it; creating the directory chain twice
equals creating it once; and when every directory of the chain already exists
the creation step has no effect at all. -/
theorem export_directory_idempotent :
    (∀ (fig fig2 : Figure) (filename : String) (w h w2 h2 : ℕ) (s s2 : ℚ) (fs : FS),
      (export_png_high_quality fig2 filename w2 h2 s2
          (export_png_high_quality fig filename w h s fs).fs).fs
        = (export_png_high_quality fig filename w h s fs).fs
      ∧ (export_png_high_quality fig2 filename w2 h2 s2
          (export_png_high_quality fig filename w h s fs).fs).ret
        = (export_png_high_quality fig filename w h s fs).ret)
    ∧ (∀ (cs : List String) (fs : FS),
      mkdirParents cs (mkdirParents cs fs) = mkdirParents cs fs)
    ∧ ∀ (cs : List String) (fs : FS),
      ancestorDirs cs ⊆ fs.dirs → mkdirParents cs fs = fs := by
  have hidem : ∀ (cs : List String) (fs : FS),
      mkdirParents cs (mkdirParents cs fs) = mkdirParents cs fs := by
    intro cs fs
    simp [mkdirParents, Finset.union_assoc]
  have hnoop : ∀ (cs : List String) (fs : FS),
      ancestorDirs cs ⊆ fs.dirs → mkdirParents cs fs = fs := by
    intro cs fs h
    cases fs with
    | mk dirs =>
      simp only [mkdirParents, FS.mk.injEq]
      exact Finset.union_eq_left.mpr h
  refine ⟨?_, hidem, hnoop⟩
  intro fig fig2 filename w h w2 h2 s s2 fs
  refine ⟨?_, rfl⟩
  rw [export_fs_eq, export_fs_eq]
  exact hidem (parentComponents (resolveFilename filename)) fs

/-- C7 witness: when the directory "out" already exists, the creation step
for the path components ["out"] leaves the file system untouched. -/
theorem export_directory_idempotent_witness :
    ancestorDirs ["out"] ⊆ outFS.dirs ∧ mkdirParents ["out"] outFS = outFS :=
  ⟨by decide, export_directory_idempotent.2.2 ["out"] outFS (by decide)⟩

/-- C9: the export suffix check is exact and case-sensitive: a filename
ending in ".PNG" does not pass the lowercase ".png" test, so export appends
".png" and produces the double-extension path "chart.PNG.png". -/
theorem export_suffix_case_sensitive :
    (∀ filename : String, strEndsWith filename ".png" = false →
      resolveFilename filename = filename ++ ".png")
    ∧ strEndsWith "chart.PNG" ".png" = false
    ∧ ∀ (fig : Figure) (width height : ℕ) (scale : ℚ) (fs : FS),
      (export_png_high_quality fig "chart.PNG" width height scale fs).ret
        = "chart.PNG.png" := by
  refine ⟨?_, by decide, ?_⟩
  · intro filename hf
    simp [resolveFilename, hf]
  · intro fig width height scale fs
    rw [export_ret_eq]
    have hf : strEndsWith "chart.PNG" ".png" = false := by decide
    rw [resolveFilename, hf]
    decide

/-- C9 witness: the suffix test rejects "chart.PNG" and normalization appends
".png" to it. -/
theorem export_suffix_case_sensitive_witness :
    strEndsWith "chart.PNG" ".png" = false
    ∧ resolveFilename "chart.PNG" = "chart.PNG" ++ ".png" :=
  ⟨by decide, export_suffix_case_sensitive.1 "chart.PNG" (by decide)⟩

end Plotter
